import Mathlib

/-!
Verification of `include/LEDA/internal/param_types.h`: parameterized value
slots (`GenPtr`), size-class dispatched lifecycle operations, the predefined
linear order `compare`, ordering predicate adapters, the polymorphic
comparator `leda_cmp_base`, default values (`leda_init_default`) and the
default stream-input operator for `GenPtr`.

Shallow embedding conventions:
* A C++ type `T` is represented by its semantic value space `α` together with
  its size `sz = sizeof(T)` in bytes; `ptrSz = sizeof(GenPtr)` is the pointer
  width.  All size-class branches in the source compare `sizeof(T)` with
  `sizeof(GenPtr)`, so the embedded operations take `sz` and `ptrSz` as
  explicit parameters.
* A slot (`GenPtr` field) either holds the value in place (small types:
  the value's bytes are the slot's bytes) or holds a pointer to a
  heap-allocated object (big types).  `Slot α` distinguishes the two.
* The dynamic memory (`new` / `delete`, `std_memory.allocate_bytes` /
  `deallocate_bytes`) is a `Heap α`: a list of live address/value pairs plus
  counters of allocations and deallocations performed so far.
* Reading through a pointer that is not live, or reading a slot with the
  wrong size class, has no defined result; `leda_access` therefore returns
  `Option α`, with `none` for those undefined situations.
-/

/-- A heap of separately allocated objects: live address/value pairs plus
allocation/deallocation counters.  `next` is the next fresh address. -/
structure Heap (α : Type) where
  next : Nat
  mem : List (Nat × α)
  allocs : Nat
  deallocs : Nat
deriving Repr

/-- `new T(...)`: allocate a fresh cell holding `v`, return its address. -/
def Heap.alloc {α : Type} (h : Heap α) (v : α) : Nat × Heap α :=
  (h.next, ⟨h.next + 1, (h.next, v) :: h.mem, h.allocs + 1, h.deallocs⟩)

/-- Dereference a pointer: the value at address `a`, if `a` is live. -/
def Heap.lookup {α : Type} (h : Heap α) (a : Nat) : Option α :=
  (h.mem.find? (fun q => q.1 = a)).map Prod.snd

/-- `delete p` / `deallocate_bytes`: remove address `a` from the live set and
count one deallocation. -/
def Heap.dealloc {α : Type} (h : Heap α) (a : Nat) : Heap α :=
  ⟨h.next, h.mem.filter (fun q => q.1 ≠ a), h.allocs, h.deallocs + 1⟩

/-- A `GenPtr` slot as used by a parameterized type `T`: for small `T`
(`sizeof(T) <= sizeof(GenPtr)`) the slot's bytes are the value itself
(`inl`, in-place); for big `T` they are a pointer to a heap object
(`ptr`). -/
inductive Slot (α : Type) where
  | inl : α → Slot α
  | ptr : Nat → Slot α
deriving Repr

/-- `true` iff the slot holds its value in place (small-type representation). -/
def Slot.isInPlace {α : Type} : Slot α → Bool
  | Slot.inl _ => true
  | Slot.ptr _ => false

/-- `leda_create` (param_types.h lines 86-94): if `sizeof(T) <= sizeof(GenPtr)`
then value-initialize in place into the `GenPtr` field via
`in_place_create` (`new (p) T()`, producing `valInit`); else heap-allocate
with `new T` (default-initialization, producing `dflInit`; for class types
this runs the default constructor, for scalars it leaves the object
indeterminate, hence the separate parameter) and store the pointer. -/
def leda_create {α : Type} (sz ptrSz : Nat) (valInit dflInit : α) (h : Heap α) :
    Slot α × Heap α :=
  if sz ≤ ptrSz then
    (Slot.inl valInit, h)
  else
    let r := h.alloc dflInit
    (Slot.ptr r.1, r.2)

/-- `leda_copy` (param_types.h lines 100-108): if `sizeof(T) <= sizeof(GenPtr)`
then copy-construct `x` in place into the `GenPtr` field via `in_place_copy`
(`new (p) T(x)`); else heap-allocate a copy with `new T(x)` and store the
pointer. -/
def leda_copy {α : Type} (sz ptrSz : Nat) (x : α) (h : Heap α) :
    Slot α × Heap α :=
  if sz ≤ ptrSz then
    (Slot.inl x, h)
  else
    let r := h.alloc x
    (Slot.ptr r.1, r.2)

/-- `leda_clear` (param_types.h lines 121-131): if `sizeof(T) <= sizeof(GenPtr)`
then call the destructor in place (`x.~T()`, no deallocation); else
`delete (&x)`, deallocating the heap object the slot points to. -/
def leda_clear {α : Type} (sz ptrSz : Nat) (s : Slot α) (h : Heap α) : Heap α :=
  if sz ≤ ptrSz then
    h
  else
    match s with
    | Slot.inl _ => h
    | Slot.ptr a => h.dealloc a

/-- `leda_access` (param_types.h lines 134-140): if
`sizeof(T) <= sizeof(GenPtr)` then reinterpret the `GenPtr` field itself as a
`T` (`*(T*)(void*)(&p)`); else dereference the stored pointer (`*(T*)p`).
A mismatched representation or a dead pointer is undefined (`none`). -/
def leda_access {α : Type} (sz ptrSz : Nat) (s : Slot α) (h : Heap α) :
    Option α :=
  if sz ≤ ptrSz then
    match s with
    | Slot.inl v => some v
    | Slot.ptr _ => none
  else
    match s with
    | Slot.inl _ => none
    | Slot.ptr a => h.lookup a

/-- `leda_const_access` (param_types.h lines 142-148): identical branch
structure to `leda_access`, returning a read-only view
(`*(const T*)(&p)` resp. `*(const T*)p`). -/
def leda_const_access {α : Type} (sz ptrSz : Nat) (s : Slot α) (h : Heap α) :
    Option α :=
  if sz ≤ ptrSz then
    match s with
    | Slot.inl v => some v
    | Slot.ptr _ => none
  else
    match s with
    | Slot.inl _ => none
    | Slot.ptr a => h.lookup a

/-- Looking up the address just returned by `alloc` yields the stored value. -/
theorem Heap.lookup_alloc {α : Type} (h : Heap α) (v : α) :
    (h.alloc v).2.lookup (h.alloc v).1 = some v := by
  simp [Heap.alloc, Heap.lookup, List.find?]

/-- The result of `leda_cast` (a `GenPtr`-compatible representation of an
existing value `x`): the address of `x` itself (big branch, a non-owning
view), the bits of `x` reinterpreted as the slot representation (equal-size
branch, a non-owning value view), or the slot returned by `leda_copy x`
(strictly-smaller branch, a fresh owned copy). -/
inductive CastRep (α : Type) where
  | addrOf : CastRep α
  | bits : α → CastRep α
  | copied : Slot α → CastRep α
deriving Repr

/-- `true` iff the cast result is a fresh owned copy rather than a view. -/
def CastRep.isCopy {α : Type} : CastRep α → Bool
  | CastRep.copied _ => true
  | _ => false

/-- `leda_cast` (param_types.h lines 111-117): if `sizeof(T) > sizeof(GenPtr)`
return `GenPtr(&x)` (the address of `x`); if `sizeof(T) == sizeof(GenPtr)`
return `*(GenPtr*)(void*)&x` (the value's bits as the slot representation);
if `sizeof(T) < sizeof(GenPtr)` return `leda_copy(x)`. -/
def leda_cast {α : Type} (sz ptrSz : Nat) (x : α) (h : Heap α) :
    CastRep α × Heap α :=
  if ptrSz < sz then
    (CastRep.addrOf, h)
  else if sz = ptrSz then
    (CastRep.bits x, h)
  else
    let r := leda_copy sz ptrSz x h
    (CastRep.copied r.1, r.2)

/-- **C1.** For every type (every size `sz`, every pointer width `ptrSz`,
so both the small and the big branch) and every value `v`, reading the slot
produced by `leda_copy v` with `leda_access` yields `v`. -/
theorem leda_copy_access_roundtrip {α : Type} (sz ptrSz : Nat) (v : α)
    (h : Heap α) :
    leda_access sz ptrSz (leda_copy sz ptrSz v h).1 (leda_copy sz ptrSz v h).2
      = some v := by
  by_cases hsz : sz ≤ ptrSz
  · simp [leda_copy, leda_access, hsz]
  · simp [leda_copy, leda_access, hsz, Heap.lookup_alloc]

/-- **C2.** `leda_cast` obeys the three-branch rule: for
`sizeof(T) > sizeof(GenPtr)` it returns the address of `x` (no copy); for
`sizeof(T) == sizeof(GenPtr)` it returns `x`'s bits reinterpreted as the slot
representation (no copy); for `sizeof(T) < sizeof(GenPtr)` it returns a full
ownership-transferring copy of `x` (through `leda_copy`, which for such a
small `T` copy-constructs in place into the slot), and this strictly-smaller
case is the only one that allocates a fresh owned object (`CastRep.isCopy`),
unlike the other two size classes, which return views of `x`.  In no branch
is dynamic memory touched (the copy is in place because `T` is small). -/
theorem leda_cast_three_branches {α : Type} (sz ptrSz : Nat) (x : α)
    (h : Heap α) :
    leda_cast sz ptrSz x h
      = (if ptrSz < sz then CastRep.addrOf
         else if sz = ptrSz then CastRep.bits x
         else CastRep.copied (Slot.inl x), h)
    ∧ (leda_cast sz ptrSz x h).1.isCopy = decide (sz < ptrSz) := by
  rcases Nat.lt_trichotomy sz ptrSz with hlt | heq | hgt
  · have h1 : ¬ ptrSz < sz := Nat.not_lt.mpr (Nat.le_of_lt hlt)
    have h2 : sz ≠ ptrSz := Nat.ne_of_lt hlt
    simp [leda_cast, leda_copy, CastRep.isCopy, h1, h2, Nat.le_of_lt hlt, hlt]
  · subst heq
    simp [leda_cast, CastRep.isCopy, Nat.lt_irrefl]
  · have h1 : ptrSz < sz := hgt
    have h2 : ¬ sz < ptrSz := Nat.not_lt.mpr (Nat.le_of_lt hgt)
    simp [leda_cast, CastRep.isCopy, h1, h2]

/-- **C4.** All lifecycle operations classify `T` by the same predicate
`sizeof(T) <= sizeof(GenPtr)`:
* `leda_create` and `leda_copy` produce an in-place slot exactly when
  `sz ≤ ptrSz` (and a heap pointer otherwise);
* `leda_access` and `leda_const_access` agree with that classification: they
  successfully read back the value `leda_copy` stored, whichever branch it
  took;
* `leda_clear` frees exactly what `leda_create` allocated: after a
  create/clear pair the number of new allocations equals the number of new
  deallocations (never "allocate indirectly but free in place" or vice
  versa);
* in particular, at the boundary `sz = ptrSz` every operation takes the
  small (in-place) branch: `leda_create` and `leda_copy` build in-place
  slots without touching the heap, and `leda_clear` deallocates nothing. -/
theorem size_class_consistent {α : Type} (sz ptrSz : Nat) (valInit dflInit x : α)
    (s : Slot α) (h : Heap α) :
    (leda_create sz ptrSz valInit dflInit h).1.isInPlace = decide (sz ≤ ptrSz)
    ∧ (leda_copy sz ptrSz x h).1.isInPlace = decide (sz ≤ ptrSz)
    ∧ leda_access sz ptrSz (leda_copy sz ptrSz x h).1 (leda_copy sz ptrSz x h).2
        = some x
    ∧ leda_const_access sz ptrSz (leda_copy sz ptrSz x h).1
        (leda_copy sz ptrSz x h).2 = some x
    ∧ ((leda_clear sz ptrSz (leda_create sz ptrSz valInit dflInit h).1
          (leda_create sz ptrSz valInit dflInit h).2).allocs - h.allocs
        = (leda_clear sz ptrSz (leda_create sz ptrSz valInit dflInit h).1
          (leda_create sz ptrSz valInit dflInit h).2).deallocs - h.deallocs)
    ∧ leda_create ptrSz ptrSz valInit dflInit h = (Slot.inl valInit, h)
    ∧ leda_copy ptrSz ptrSz x h = (Slot.inl x, h)
    ∧ leda_clear ptrSz ptrSz s h = h := by
  by_cases hsz : sz ≤ ptrSz
  · simp [leda_create, leda_copy, leda_clear, leda_access, leda_const_access,
      Slot.isInPlace, hsz]
  · simp [leda_create, leda_copy, leda_clear, leda_access, leda_const_access,
      Slot.isInPlace, Heap.alloc, Heap.dealloc, Heap.lookup, List.find?, hsz]

/-- **C6.** Heap traffic of the lifecycle operations: for a small `T`
(`sz ≤ ptrSz`) `leda_create`, `leda_copy` and `leda_clear` perform no heap
allocation and no deallocation; for a big `T` (`sz > ptrSz`) `leda_create`
and `leda_copy` perform exactly one allocation each (and no deallocation),
and the matching `leda_clear` of the slot they produced performs exactly one
deallocation (and no allocation). -/
theorem lifecycle_alloc_counts {α : Type} (sz ptrSz : Nat) (valInit dflInit x : α)
    (h : Heap α) :
    (leda_create sz ptrSz valInit dflInit h).2.allocs
        = h.allocs + (if sz ≤ ptrSz then 0 else 1)
    ∧ (leda_create sz ptrSz valInit dflInit h).2.deallocs = h.deallocs
    ∧ (leda_copy sz ptrSz x h).2.allocs
        = h.allocs + (if sz ≤ ptrSz then 0 else 1)
    ∧ (leda_copy sz ptrSz x h).2.deallocs = h.deallocs
    ∧ (leda_clear sz ptrSz (leda_copy sz ptrSz x h).1
        (leda_copy sz ptrSz x h).2).deallocs
        = h.deallocs + (if sz ≤ ptrSz then 0 else 1)
    ∧ (leda_clear sz ptrSz (leda_copy sz ptrSz x h).1
        (leda_copy sz ptrSz x h).2).allocs
        = (leda_copy sz ptrSz x h).2.allocs
    ∧ (leda_clear sz ptrSz (leda_create sz ptrSz valInit dflInit h).1
        (leda_create sz ptrSz valInit dflInit h).2).deallocs
        = h.deallocs + (if sz ≤ ptrSz then 0 else 1) := by
  by_cases hsz : sz ≤ ptrSz
  · simp [leda_create, leda_copy, leda_clear, hsz]
  · simp [leda_create, leda_copy, leda_clear, Heap.alloc, Heap.dealloc, hsz]

/-- The two build configurations of the library: `WORD_LENGTH_32` (ILP32) or
64-bit (LP64), fixing `sizeof(GenPtr)`. -/
inductive WordLen where
  | w32
  | w64
deriving Repr, DecidableEq

/-- `sizeof(GenPtr)` (a `void*`) in each configuration. -/
def ptrSize : WordLen → Nat
  | WordLen.w32 => 4
  | WordLen.w64 => 8

/-- The built-in scalar types named by the spec's scalar property. -/
inductive ScalarKind where
  | char
  | short
  | int
  | long
  | float
  | double
deriving Repr, DecidableEq

/-- `sizeof(T)` for each scalar type in each configuration (ILP32 / LP64). -/
def sizeofScalar : ScalarKind → WordLen → Nat
  | ScalarKind.char, _ => 1
  | ScalarKind.short, _ => 2
  | ScalarKind.int, _ => 4
  | ScalarKind.long, WordLen.w32 => 4
  | ScalarKind.long, WordLen.w64 => 8
  | ScalarKind.float, _ => 4
  | ScalarKind.double, _ => 8

/-- The `WORD_LENGTH_32` specialization of `leda_create` for `double`
(param_types.h lines 175-179): `std_memory.allocate_bytes(sizeof(double))`
then `*(double*)p = 0` — allocate and explicitly store the zero value. -/
def leda_create_double32 (h : Heap Int) : Slot Int × Heap Int :=
  let r := h.alloc 0
  (Slot.ptr r.1, r.2)

/-- The `WORD_LENGTH_32` specialization of `leda_access` for `double`
(param_types.h lines 187-188): always dereference, `*(double*)p`. -/
def leda_access_double32 (s : Slot Int) (h : Heap Int) : Option Int :=
  match s with
  | Slot.inl _ => none
  | Slot.ptr a => h.lookup a

/-- `create` then `access` for a built-in scalar type, following C++ overload
resolution as the source sets it up: under `WORD_LENGTH_32` the non-template
`double` overloads beat the function templates, so `double` on a 32-bit build
uses `leda_create_double32` / `leda_access_double32`; every other
scalar/configuration pair uses the generic templates at its size.  On the
generic small branch `in_place_create` performs `new (p) T()`
(value-initialization), which for a scalar type produces the zero value, so
`valInit = 0`; on the generic big branch `new T` default-initializes, leaving
a scalar indeterminate, so `dflInit` stays an arbitrary parameter. -/
def create_then_access_scalar (k : ScalarKind) (w : WordLen) (dflInit : Int)
    (h : Heap Int) : Option Int :=
  match k, w with
  | ScalarKind.double, WordLen.w32 =>
      let r := leda_create_double32 h
      leda_access_double32 r.1 r.2
  | _, _ =>
      let r := leda_create (sizeofScalar k w) (ptrSize w) 0 dflInit h
      leda_access (sizeofScalar k w) (ptrSize w) r.1 r.2

/-- **C3.** For every scalar type in {char, short, int, long, float, double},
in both build configurations, and whatever value a default-initializing
`new T` would leave in a heap cell, `leda_create` then `leda_access` yields
the zero value of the type.  Every scalar except `double` on a 32-bit build
is small and takes the in-place value-initializing branch; `double` under
`WORD_LENGTH_32` is big and goes through the specialized pair, whose create
explicitly stores 0 behind the allocated pointer. -/
theorem create_access_scalar_zero (k : ScalarKind) (w : WordLen) (dflInit : Int)
    (h : Heap Int) :
    create_then_access_scalar k w dflInit h = some 0 := by
  cases k <;> cases w <;>
    simp [create_then_access_scalar, leda_create, leda_access,
      leda_create_double32, leda_access_double32, Heap.lookup_alloc,
      sizeofScalar, ptrSize]

/-- The predefined linear order `compare` (param_types.h lines 290-295),
derived from the type's strict `<` only (modelled as the Boolean relation
`lt`): `-1` if `x < y`, else `+1` if `y < x`, else `0`. -/
def leda.compare {α : Type} (lt : α → α → Bool) (x y : α) : Int :=
  if lt x y then -1 else if lt y x then 1 else 0

/-- **C5.** `compare` returns −1 if `x < y`, +1 if `y < x`, else 0 (first
conjunct, for an arbitrary strict relation); and whenever `<` is a strict
weak order — asymmetry, `hasym`, is the part needed — `compare` is
sign-flip antisymmetric and reflexively zero. -/
theorem compare_three_way {α : Type} (lt : α → α → Bool)
    (hasym : ∀ a b, lt a b = true → lt b a = false) (x y : α) :
    leda.compare lt x y = (if lt x y then -1 else if lt y x then 1 else 0)
    ∧ leda.compare lt x y = -(leda.compare lt y x)
    ∧ leda.compare lt x x = 0 := by
  refine ⟨rfl, ?_, ?_⟩
  · cases hxy : lt x y with
    | true => simp [leda.compare, hxy, hasym x y hxy]
    | false =>
        cases hyx : lt y x with
        | true => simp [leda.compare, hxy, hyx]
        | false => simp [leda.compare, hxy, hyx]
  · cases hxx : lt x x with
    | true => exact absurd (hasym x x hxx) (by simp [hxx])
    | false => simp [leda.compare, hxx]

/-- Witness for C5: the strict order on `Fin 3` is asymmetric, and the
conclusion of `compare_three_way` holds at `x = 0`, `y = 1`. -/
theorem compare_three_way_witness :
    (∀ a b : Fin 3, decide (a < b) = true → decide (b < a) = false)
    ∧ (leda.compare (fun a b : Fin 3 => decide (a < b)) 0 1
        = (if (fun a b : Fin 3 => decide (a < b)) 0 1 then -1
           else if (fun a b : Fin 3 => decide (a < b)) 1 0 then 1 else 0)
      ∧ leda.compare (fun a b : Fin 3 => decide (a < b)) 0 1
          = -(leda.compare (fun a b : Fin 3 => decide (a < b)) 1 0)
      ∧ leda.compare (fun a b : Fin 3 => decide (a < b)) 0 0 = 0) :=
  ⟨by decide, compare_three_way (fun a b : Fin 3 => decide (a < b)) (by decide) 0 1⟩

/-- `smaller_default<T>` (param_types.h lines 298-305): stateless functor
whose application returns `compare(x,y) < 0`, with `compare` the default
linear order derived from the type's `<` (modelled by `lt`). -/
def smaller_default {α : Type} (lt : α → α → Bool) (x y : α) : Bool :=
  decide (leda.compare lt x y < 0)

/-- `smaller_cmp_func<T>` (param_types.h lines 308-314): stores a comparison
function pointer `cmp`, captured by its constructor. -/
structure smaller_cmp_func (α : Type) where
  cmp : α → α → Int

/-- `smaller_cmp_func::operator()`: returns `cmp(x,y) < 0`. -/
def smaller_cmp_func.apply {α : Type} (s : smaller_cmp_func α) (x y : α) :
    Bool :=
  decide (s.cmp x y < 0)

/-- `smaller_cmp_obj<T,CMP>` (param_types.h lines 316-322): stores a reference
to a caller-owned comparator object `cmp` (modelled by the comparator's
call behavior). -/
structure smaller_cmp_obj (α : Type) where
  cmp : α → α → Int

/-- `smaller_cmp_obj::operator()`: returns `cmp(x,y) < 0`. -/
def smaller_cmp_obj.apply {α : Type} (s : smaller_cmp_obj α) (x y : α) :
    Bool :=
  decide (s.cmp x y < 0)

/-- **C9.** Each ordering predicate wrapper answers `true` exactly when its
underlying three-way comparison of `(x, y)` is negative: `smaller_default`
tests `compare(x,y) < 0`, `smaller_cmp_func` wrapping `c` tests `c(x,y) < 0`,
and `smaller_cmp_obj` wrapping `d` tests `d(x,y) < 0`. -/
theorem smaller_adapters_negative_iff {α : Type} (lt : α → α → Bool)
    (c d : α → α → Int) (x y : α) :
    (smaller_default lt x y = true ↔ leda.compare lt x y < 0)
    ∧ (smaller_cmp_func.apply ⟨c⟩ x y = true ↔ c x y < 0)
    ∧ (smaller_cmp_obj.apply ⟨d⟩ x y = true ↔ d x y < 0) := by
  refine ⟨?_, ?_, ?_⟩ <;>
    simp [smaller_default, smaller_cmp_func.apply, smaller_cmp_obj.apply]

/-- `charsStartWith s p`: the character list `p` is an initial segment of
`s`. -/
def charsStartWith : List Char → List Char → Bool
  | _, [] => true
  | [], _ :: _ => false
  | c :: cs, p :: ps => (c = p) && charsStartWith cs ps

/-- `charsContain s p`: the character list `p` occurs contiguously inside
`s` (used to relate an error description to the full reported message). -/
def charsContain : List Char → List Char → Bool
  | [], p => p.isEmpty
  | c :: cs, p => charsStartWith (c :: cs) p || charsContain cs p

/-- Outcome of one call to the polymorphic comparator: either the configured
function's result, or a fatal report through `error_handler(level, msg)`
(the call `cmp(x,y)` after a level-1 report is never reached: the hook does
not return for level ≥ 1). -/
inductive CmpCallResult where
  | fatalReport : Nat → String → CmpCallResult
  | ok : Int → CmpCallResult
deriving Repr, DecidableEq

/-- `leda_cmp_base<T>` (param_types.h lines 326-351): a virtual comparator
holding a comparison function pointer `cmp` (`none` models the null pointer)
and a flag `dynamic` marking a heap-allocated comparator. -/
structure leda_cmp_base (α : Type) where
  cmp : Option (α → α → Int)
  dynamic : Bool

/-- The constructor `leda_cmp_base(int (*c)(...) = 0, bool dyn = false)` with
both arguments defaulted: a default-constructed comparator has a null
function pointer and `dynamic = false`. -/
def leda_cmp_base.mkDefault {α : Type} : leda_cmp_base α :=
  ⟨none, false⟩

/-- `leda_cmp_base::operator()` (param_types.h lines 342-345): if the stored
pointer is null, `error_handler(1, "leda_cmp_base: compare undefined")`;
otherwise return `cmp(x,y)`. -/
def leda_cmp_base.call {α : Type} (c : leda_cmp_base α) (x y : α) :
    CmpCallResult :=
  match c.cmp with
  | none => CmpCallResult.fatalReport 1 "leda_cmp_base: compare undefined"
  | some f => CmpCallResult.ok (f x y)

/-- **C8.** Calling the polymorphic comparator with no comparison function
configured — whether default-constructed or built with a null pointer and any
`dynamic` flag — reports the fatal level-1 error
`"leda_cmp_base: compare undefined"`, whose text contains the description
`"compare undefined"`; with a non-null function `f` configured the call
returns exactly `f x y`. -/
theorem leda_cmp_base_call_spec {α : Type} (f : α → α → Int) (d : Bool)
    (x y : α) :
    leda_cmp_base.call (leda_cmp_base.mkDefault) x y
        = CmpCallResult.fatalReport 1 "leda_cmp_base: compare undefined"
    ∧ leda_cmp_base.call ⟨none, d⟩ x y
        = CmpCallResult.fatalReport 1 "leda_cmp_base: compare undefined"
    ∧ charsContain "leda_cmp_base: compare undefined".data
        "compare undefined".data = true
    ∧ leda_cmp_base.call ⟨some f, d⟩ x y = CmpCallResult.ok (f x y) :=
  ⟨rfl, rfl, by decide, rfl⟩

/-- A report produced through the error-reporting hook: a level and a
message. -/
structure ErrorReport where
  level : Nat
  msg : String
deriving Repr, DecidableEq

/-- Modelled from the spec: `error_handler` is declared outside this unit
(only called here); per the spec it is "a single fatal error-reporting hook"
that reports the given message and, at level 1, does not let the failing
operation succeed.  We model a call as producing the report it raises. -/
def error_handler (i : Nat) (msg : String) : ErrorReport :=
  ⟨i, msg⟩

/-- A text input stream, reduced to its pending characters. -/
structure IStream where
  pending : List Char
deriving Repr, DecidableEq

/-- Observable outcome of one invocation of the default `GenPtr` input
operator: the errors reported, the stream returned, the `GenPtr` value
after the call, and whether the read succeeded. -/
structure GenPtrReadResult where
  reports : List ErrorReport
  stream : IStream
  target : Int
  success : Bool
deriving Repr, DecidableEq

/-- The default input operator for pointers,
`operator>>(istream& in, GenPtr)` (param_types.h lines 70-71):
`error_handler(1, "stream input operator (>>) not defined"); return in;`.
The `GenPtr` argument is passed by value, so the caller's slot `p` is never
written; no characters are consumed; the read never succeeds. -/
def genPtr_stream_read (ins : IStream) (p : Int) : GenPtrReadResult :=
  { reports := [error_handler 1 "stream input operator (>>) not defined"]
    stream := ins
    target := p
    success := false }

/-- Counterexample to **C7** as stated: at the concrete invocation with an
empty stream and slot value `0`, the operator does not report the error
`"stream input not defined"` — no reported message even contains that text
(the actual message is `"stream input operator (>>) not defined"`). -/
theorem genPtr_stream_read_message_cex :
    (genPtr_stream_read ⟨[]⟩ 0).reports.all
      (fun r => !(charsContain r.msg.data "stream input not defined".data))
      = true := by
  decide

/-- **C7 (amended).** The default text-input operator on `GenPtr`
unconditionally fails on every invocation: it reports exactly the level-1
error `"stream input operator (>>) not defined"`, never succeeds, leaves the
target slot value untouched (it is passed by value), and consumes no input. -/
theorem genPtr_stream_read_always_fails (ins : IStream) (p : Int) :
    (genPtr_stream_read ins p).success = false
    ∧ (genPtr_stream_read ins p).reports
        = [error_handler 1 "stream input operator (>>) not defined"]
    ∧ (genPtr_stream_read ins p).target = p
    ∧ (genPtr_stream_read ins p).stream = ins :=
  ⟨rfl, rfl, rfl, rfl⟩

/-- The built-in scalar types for which `leda_init_default` has explicit
overloads (param_types.h lines 390-399). -/
inductive BasicScalar where
  | char
  | short
  | int
  | long
  | uchar
  | ushort
  | uint
  | ulong
  | float
  | double
deriving Repr, DecidableEq

/-- The value produced by C++ value-initialization `T()` for an arithmetic
type: zero-initialization, i.e. the zero value of the type (a semantic fact
of the source language, used by the generic `leda_init_default` fallback). -/
def scalar_value_init : BasicScalar → Int :=
  fun _ => 0

/-- The generic `leda_init_default` fallback (param_types.h lines 382-388):
`x = T()` — the final value of `x` is the value-initialized `T()`, whatever
the previous value was. -/
def leda_init_default_generic (tValueInit : Int) (x : Int) : Int :=
  tValueInit

/-- The scalar overloads of `leda_init_default` (param_types.h lines
390-399): for each of the ten built-in scalar types, `x = 0` — the final
value of `x` is zero. -/
def leda_init_default_scalar (k : BasicScalar) (x : Int) : Int :=
  0

/-- **C10.** For every built-in scalar type with an explicit
`leda_init_default` overload and every prior value `x`, the overload leaves
the argument with the same final value as the generic fallback would
(assigning `T()`, which value-initializes the scalar to zero): the scalar
overrides are behavior-preserving refinements of the generic fallback. -/
theorem init_default_scalar_refines_generic (k : BasicScalar) (x : Int) :
    leda_init_default_scalar k x
      = leda_init_default_generic (scalar_value_init k) x :=
  rfl
